import Mathlib

/-!
Shallow embedding of the garm-provider-aws plugin (spec builder, extra-specs
validation, EC2 client adapter and provider facade) together with theorems
settling the claims about it.  Definitions mirror the Go source; machine
integers (`int32`) are modelled as `Int` (the code only compares them, never
does arithmetic, so no overflow can occur), Go `nil` pointers as `Option`,
fallible functions as `Except`.
-/

namespace GarmAws

/-- Model of `params.RunnerApplicationDownload` (external collaborator shape);
only carried around, never inspected by the code under verification. -/
structure RunnerApplicationDownload where
  os : Option String
  architecture : Option String
  downloadURL : Option String
  filename : Option String
  deriving Repr, DecidableEq

/-- Model of `params.BootstrapInstance` (host-supplied input); the fields the
provider reads.  `extraSpecs` is the raw JSON blob (`json.RawMessage`). -/
structure BootstrapInstance where
  name : String
  poolID : String
  osType : String
  osArch : String
  image : String
  flavor : String
  tools : List RunnerApplicationDownload
  extraSpecs : String
  deriving Repr, DecidableEq

/-- Model of `spec.RunnerSpec` (internal/spec/spec.go).  `types.VolumeType` is a
string-typed enum in the AWS SDK, so `volumeType` is a `String` whose zero
value `""` models the unset type. -/
structure RunnerSpec where
  region : String
  disableUpdates : Bool
  extraPackages : List String
  enableBootDebug : Bool
  tools : RunnerApplicationDownload
  bootstrapParams : BootstrapInstance
  securityGroupIds : List String
  subnetID : String
  sshKeyName : Option String
  iops : Option Int
  throughput : Option Int
  volumeSize : Option Int
  volumeType : String
  controllerID : String
  deriving Repr, DecidableEq

/-- Model of the `spec.extraSpecs` struct: every JSON-optional field is an
`Option` (Go pointer), lists are Go slices (nil slice = `[]`), and the embedded
`cloudconfig.CloudConfigSpec` contributes the last three fields. -/
structure ExtraSpecs where
  subnetID : Option String
  sshKeyName : Option String
  iops : Option Int
  throughput : Option Int
  volumeSize : Option Int
  volumeType : String
  securityGroupIds : List String
  disableUpdates : Option Bool
  enableBootDebug : Option Bool
  extraPackages : List String
  runnerInstallTemplate : Option String
  extraContext : List (String × String)
  preInstallScripts : List (String × String)
  deriving Repr, DecidableEq

/-- The zero value `extraSpecs{}` of the Go struct. -/
def ExtraSpecs.empty : ExtraSpecs :=
  { subnetID := none, sshKeyName := none, iops := none, throughput := none
    volumeSize := none, volumeType := "", securityGroupIds := []
    disableUpdates := none, enableBootDebug := none, extraPackages := []
    runnerInstallTemplate := none, extraContext := [], preInstallScripts := [] }

/-- The `r.Iops != nil` block of `RunnerSpec.Validate` (internal/spec/spec.go,
switch on `r.VolumeType` with cases io1, io2, gp3 and a default error). -/
def RunnerSpec.validateIops (r : RunnerSpec) : Except String Unit :=
  match r.iops with
  | none => .ok ()
  | some i =>
    if r.volumeType = "io1" then
      if i < 100 ∨ i > 64000 then
        .error ("EBS iops for volume type " ++ r.volumeType ++ " must be between 100 and 64000")
      else .ok ()
    else if r.volumeType = "io2" then
      if i < 100 ∨ i > 256000 then
        .error ("EBS iops for volume type " ++ r.volumeType ++ " must be between 100 and 256000")
      else .ok ()
    else if r.volumeType = "gp3" then
      if i < 3000 ∨ i > 16000 then
        .error ("EBS iops for volume type " ++ r.volumeType ++ " must be between 3000 and 16000")
      else .ok ()
    else
      .error "EBS iops is only valid for volume types io1, io2 and gp3"

/-- The `r.Throughput != nil && r.VolumeType != types.VolumeTypeGp3` check of
`RunnerSpec.Validate`. -/
def RunnerSpec.validateThroughput (r : RunnerSpec) : Except String Unit :=
  match r.throughput with
  | none => .ok ()
  | some _ =>
    if r.volumeType ≠ "gp3" then
      .error "EBS throughput is only valid for volume type gp3"
    else .ok ()

/-- The `r.VolumeSize != nil` block of `RunnerSpec.Validate` (switch on
`r.VolumeType` with grouped cases and a default error). -/
def RunnerSpec.validateVolumeSize (r : RunnerSpec) : Except String Unit :=
  match r.volumeSize with
  | none => .ok ()
  | some s =>
    if r.volumeType = "io1" then
      if s < 4 ∨ s > 16384 then
        .error ("EBS volume size for volume type " ++ r.volumeType ++ " must be between 4 and 16384")
      else .ok ()
    else if r.volumeType = "io2" then
      if s < 4 ∨ s > 16384 then
        .error ("EBS volume size for volume type " ++ r.volumeType ++ " must be between 4 and 16384")
      else .ok ()
    else if r.volumeType = "gp2" ∨ r.volumeType = "gp3" then
      if s < 1 ∨ s > 16384 then
        .error ("EBS volume size for volume type " ++ r.volumeType ++ " must be between 1 and 16384")
      else .ok ()
    else if r.volumeType = "st1" ∨ r.volumeType = "sc1" then
      if s < 125 ∨ s > 16384 then
        .error ("EBS volume size for volume type " ++ r.volumeType ++ " must be between 125 and 16384")
      else .ok ()
    else if r.volumeType = "standard" ∨ r.volumeType = "" then
      if s < 1 ∨ s > 1024 then
        .error "EBS volume size for volume type standard must be between 1 and 1024"
      else .ok ()
    else
      .error "EBS volume size is only valid for volume types io1, io2, gp2, gp3, st1, sc1 and standard"

/-- The final `r.VolumeType != ""` block of `RunnerSpec.Validate`: io1/io2
volumes require `iops` to be set. -/
def RunnerSpec.validateIopsRequired (r : RunnerSpec) : Except String Unit :=
  if r.volumeType ≠ "" then
    if r.volumeType = "io1" ∨ r.volumeType = "io2" then
      match r.iops with
      | none => .error ("the parameter iops must be specified for " ++ r.volumeType ++ " volumes")
      | some _ => .ok ()
    else .ok ()
  else .ok ()

/-- `RunnerSpec.Validate` (internal/spec/spec.go): region and bootstrap-name
checks followed by the four volume checks in source order; the first failing
check's error is returned (Go early returns = `Except` chaining). -/
def RunnerSpec.Validate (r : RunnerSpec) : Except String Unit :=
  if r.region = "" then .error "missing region"
  else if r.bootstrapParams.name = "" then .error "missing bootstrap params"
  else
    match r.validateIops with
    | .error e => .error e
    | .ok _ =>
      match r.validateThroughput with
      | .error e => .error e
      | .ok _ =>
        match r.validateVolumeSize with
        | .error e => .error e
        | .ok _ => r.validateIopsRequired

/-- `RunnerSpec.MergeExtraSpecs` (internal/spec/spec.go): each present
(`!= nil`, and for `SubnetID` also non-empty; for slices non-empty; for
`VolumeType` non-empty string) field of the extra specs overwrites the
corresponding spec field.  `ExtraPackages` and the cloud-config fields are not
touched by the merge. -/
def RunnerSpec.MergeExtraSpecs (r : RunnerSpec) (es : ExtraSpecs) : RunnerSpec :=
  let r := match es.subnetID with
    | some s => if s ≠ "" then { r with subnetID := s } else r
    | none => r
  let r := match es.iops with
    | some _ => { r with iops := es.iops }
    | none => r
  let r := match es.throughput with
    | some _ => { r with throughput := es.throughput }
    | none => r
  let r := match es.volumeSize with
    | some _ => { r with volumeSize := es.volumeSize }
    | none => r
  let r := if es.volumeType ≠ "" then { r with volumeType := es.volumeType } else r
  let r := match es.sshKeyName with
    | some _ => { r with sshKeyName := es.sshKeyName }
    | none => r
  let r := if es.securityGroupIds.length > 0 then { r with securityGroupIds := es.securityGroupIds } else r
  let r := match es.disableUpdates with
    | some b => { r with disableUpdates := b }
    | none => r
  let r := match es.enableBootDebug with
    | some b => { r with enableBootDebug := b }
    | none => r
  r

/-! ### JSON model

`jsonSchemaValidation` and `json.Unmarshal` operate on the raw extra-specs
bytes.  We model JSON well-formedness with a small executable parser (objects,
arrays, unescaped strings, integers, booleans, null — the shapes the extra
specs schema admits).  What the claims rely on is shared by every JSON
implementation, most importantly that empty input is not a JSON document. -/

/-- JSON values (sufficient for the extra-specs schema). -/
inductive JsonValue where
  | str : String → JsonValue
  | num : Int → JsonValue
  | bool : Bool → JsonValue
  | null : JsonValue
  | arr : List JsonValue → JsonValue
  | obj : List (String × JsonValue) → JsonValue
  deriving Repr

def lbraceChar : Char := Char.ofNat 123

def rbraceChar : Char := Char.ofNat 125

def dquoteChar : Char := Char.ofNat 34

def isJsonWs (c : Char) : Bool :=
  c = ' ' ∨ c = '\n' ∨ c = '\t' ∨ c = '\r'

def skipWs : List Char → List Char
  | [] => []
  | c :: rest => if isJsonWs c then skipWs rest else c :: rest

/-- Scan the body of a string literal up to the closing quote (no escapes). -/
def scanStringBody : List Char → Option (List Char × List Char)
  | [] => none
  | c :: rest =>
    if c = dquoteChar then some ([], rest)
    else
      match scanStringBody rest with
      | some (s, rem) => some (c :: s, rem)
      | none => none

def expectChars : List Char → List Char → Option (List Char)
  | [], cs => some cs
  | _ :: _, [] => none
  | e :: es, c :: cs => if c = e then expectChars es cs else none

def takeDigits : List Char → List Char × List Char
  | [] => ([], [])
  | c :: rest =>
    if c.isDigit then
      let (ds, rem) := takeDigits rest
      (c :: ds, rem)
    else ([], c :: rest)

def digitsToNat (ds : List Char) : Nat :=
  ds.foldl (fun acc c => acc * 10 + (c.toNat - 48)) 0

def scanIntLit (cs : List Char) : Option (Int × List Char) :=
  match cs with
  | '-' :: rest =>
    let (ds, rem) := takeDigits rest
    if ds = [] then none else some (-(Int.ofNat (digitsToNat ds)), rem)
  | _ =>
    let (ds, rem) := takeDigits cs
    if ds = [] then none else some (Int.ofNat (digitsToNat ds), rem)

mutual

/-- Parse one JSON value; `fuel` bounds recursion depth. -/
def parseValue (fuel : Nat) (cs : List Char) : Option (JsonValue × List Char) :=
  match fuel with
  | 0 => none
  | Nat.succ f =>
    match skipWs cs with
    | [] => none
    | c :: rest =>
      if c = lbraceChar then
        match skipWs rest with
        | [] => none
        | c2 :: rest2 =>
          if c2 = rbraceChar then some (.obj [], rest2)
          else parseMembers f (c2 :: rest2)
      else if c = '[' then
        match skipWs rest with
        | [] => none
        | c2 :: rest2 =>
          if c2 = ']' then some (.arr [], rest2)
          else
            match parseItems f (c2 :: rest2) with
            | some (vs, rem) => some (.arr vs, rem)
            | none => none
      else if c = dquoteChar then
        match scanStringBody rest with
        | some (s, rem) => some (.str (String.mk s), rem)
        | none => none
      else if c = 't' then
        match expectChars ['r', 'u', 'e'] rest with
        | some rem => some (.bool true, rem)
        | none => none
      else if c = 'f' then
        match expectChars ['a', 'l', 's', 'e'] rest with
        | some rem => some (.bool false, rem)
        | none => none
      else if c = 'n' then
        match expectChars ['u', 'l', 'l'] rest with
        | some rem => some (.null, rem)
        | none => none
      else if c = '-' ∨ c.isDigit then
        match scanIntLit (c :: rest) with
        | some (i, rem) => some (.num i, rem)
        | none => none
      else none

/-- Parse the members of a JSON object (after at least one member is known to
follow), up to and including the closing brace. -/
def parseMembers (fuel : Nat) (cs : List Char) : Option (JsonValue × List Char) :=
  match fuel with
  | 0 => none
  | Nat.succ f =>
    match skipWs cs with
    | [] => none
    | c :: rest =>
      if c = dquoteChar then
        match scanStringBody rest with
        | some (k, rem) =>
          match skipWs rem with
          | ':' :: rem2 =>
            match parseValue f rem2 with
            | some (v, rem3) =>
              match skipWs rem3 with
              | ',' :: rem4 =>
                match parseMembers f rem4 with
                | some (.obj kvs, rem5) => some (.obj ((String.mk k, v) :: kvs), rem5)
                | _ => none
              | c4 :: rem4 =>
                if c4 = rbraceChar then some (.obj [(String.mk k, v)], rem4) else none
              | [] => none
            | none => none
          | _ => none
        | none => none
      else none

/-- Parse the items of a JSON array (after at least one item is known to
follow), up to and including the closing bracket. -/
def parseItems (fuel : Nat) (cs : List Char) : Option (List JsonValue × List Char) :=
  match fuel with
  | 0 => none
  | Nat.succ f =>
    match parseValue f cs with
    | some (v, rem) =>
      match skipWs rem with
      | ',' :: rem2 =>
        match parseItems f rem2 with
        | some (vs, rem3) => some (v :: vs, rem3)
        | none => none
      | ']' :: rem2 => some ([v], rem2)
      | _ => none
    | none => none

end

/-- Parse a complete JSON document: one value followed only by whitespace.
Empty input yields `none` (not a JSON document). -/
def parseJson (raw : String) : Option JsonValue :=
  match parseValue (raw.length + 1) raw.toList with
  | some (v, rem) => if skipWs rem = [] then some v else none
  | none => none

/-! ### Extra specs parsing (internal/spec/spec.go) -/

/-- The top-level keys admitted by the reflected schema of the `extraSpecs`
struct (`additionalProperties: false`). -/
def allowedExtraSpecsKeys : List String :=
  ["subnet_id", "ssh_key_name", "iops", "throughput", "volume_size",
   "volume_type", "security_group_ids", "disable_updates", "enable_boot_debug",
   "extra_packages", "runner_install_template", "extra_context",
   "pre_install_scripts"]

/-- `spec.jsonSchemaValidation`: load the raw bytes as JSON (any failure —
including empty input — is a validation error, mirroring
`gojsonschema.Validate` returning an error on undecodable input) and check the
document against the reflected schema.  The schema's per-field type, pattern
and enum checks are not needed by any claim and are modelled only down to the
object shape and the `additionalProperties: false` key check. -/
def jsonSchemaValidation (raw : String) : Except String Unit :=
  match parseJson raw with
  | none => .error "failed to validate schema: invalid JSON"
  | some (.obj fields) =>
    if fields.all (fun kv => allowedExtraSpecsKeys.contains kv.1) then .ok ()
    else .error "schema validation failed: additional properties are not allowed"
  | some _ => .error "schema validation failed: invalid type"

def lookupJsonField (fields : List (String × JsonValue)) (key : String) : Option JsonValue :=
  match fields with
  | [] => none
  | (k, v) :: rest => if k = key then some v else lookupJsonField rest key

def jsonFieldString (fields : List (String × JsonValue)) (key : String) : Option String :=
  match lookupJsonField fields key with
  | some (.str s) => some s
  | _ => none

def jsonFieldInt (fields : List (String × JsonValue)) (key : String) : Option Int :=
  match lookupJsonField fields key with
  | some (.num i) => some i
  | _ => none

def jsonFieldBool (fields : List (String × JsonValue)) (key : String) : Option Bool :=
  match lookupJsonField fields key with
  | some (.bool b) => some b
  | _ => none

def jsonFieldStringList (fields : List (String × JsonValue)) (key : String) : List String :=
  match lookupJsonField fields key with
  | some (.arr vs) =>
    vs.filterMap (fun v => match v with | .str s => some s | _ => none)
  | _ => []

def jsonFieldStringMap (fields : List (String × JsonValue)) (key : String) : List (String × String) :=
  match lookupJsonField fields key with
  | some (.obj kvs) =>
    kvs.filterMap (fun kv => match kv.2 with | .str s => some (kv.1, s) | _ => none)
  | _ => []

/-- `json.Unmarshal` of a (schema-valid) document into the `extraSpecs`
struct: absent fields stay at their zero value. -/
def unmarshalExtraSpecs (raw : String) : Except String ExtraSpecs :=
  match parseJson raw with
  | none => .error "unexpected end of JSON input"
  | some (.obj fields) =>
    .ok { subnetID := jsonFieldString fields "subnet_id"
          sshKeyName := jsonFieldString fields "ssh_key_name"
          iops := jsonFieldInt fields "iops"
          throughput := jsonFieldInt fields "throughput"
          volumeSize := jsonFieldInt fields "volume_size"
          volumeType := (jsonFieldString fields "volume_type").getD ""
          securityGroupIds := jsonFieldStringList fields "security_group_ids"
          disableUpdates := jsonFieldBool fields "disable_updates"
          enableBootDebug := jsonFieldBool fields "enable_boot_debug"
          extraPackages := jsonFieldStringList fields "extra_packages"
          runnerInstallTemplate := jsonFieldString fields "runner_install_template"
          extraContext := jsonFieldStringMap fields "extra_context"
          preInstallScripts := jsonFieldStringMap fields "pre_install_scripts" }
  | some _ => .error "cannot unmarshal non-object into extraSpecs"

/-- `spec.newExtraSpecsFromBootstrapData`: schema validation runs
unconditionally on the raw bytes; only the unmarshal step is guarded by the
`len(data.ExtraSpecs) > 0` check. -/
def newExtraSpecsFromBootstrapData (data : BootstrapInstance) : Except String ExtraSpecs :=
  match jsonSchemaValidation data.extraSpecs with
  | .error e => .error ("failed to validate extra specs: " ++ e)
  | .ok _ =>
    if data.extraSpecs.length > 0 then
      match unmarshalExtraSpecs data.extraSpecs with
      | .error e => .error ("failed to unmarshal extra specs: " ++ e)
      | .ok es => .ok es
    else .ok ExtraSpecs.empty

/-- Model of `config.Config` (the fields the spec builder reads). -/
structure Config where
  region : String
  subnetID : String
  deriving Repr, DecidableEq

/-- The pluggable tool-fetch strategy (`spec.DefaultToolFetch` global),
injected as a parameter. -/
def ToolFetchFunc : Type :=
  String → String → List RunnerApplicationDownload → Except String RunnerApplicationDownload

/-- `spec.GetRunnerSpecFromBootstrapParams`: fetch tools, parse extra specs,
initialize the spec from config defaults and bootstrap data, merge, validate. -/
def GetRunnerSpecFromBootstrapParams (toolFetch : ToolFetchFunc) (cfg : Config)
    (data : BootstrapInstance) (controllerID : String) : Except String RunnerSpec :=
  match toolFetch data.osType data.osArch data.tools with
  | .error e => .error ("failed to get tools: " ++ e)
  | .ok tools =>
    match newExtraSpecsFromBootstrapData data with
    | .error e => .error ("error loading extra specs: " ++ e)
    | .ok es =>
      let s : RunnerSpec :=
        { region := cfg.region
          disableUpdates := false
          extraPackages := es.extraPackages
          enableBootDebug := false
          tools := tools
          bootstrapParams := data
          securityGroupIds := []
          subnetID := cfg.subnetID
          sshKeyName := none
          iops := none
          throughput := none
          volumeSize := none
          volumeType := ""
          controllerID := controllerID }
      let s := s.MergeExtraSpecs es
      match s.Validate with
      | .error e => .error ("error validating spec: " ++ e)
      | .ok _ => .ok s

/-! ### Instance conversion (internal/util/util.go) -/

/-- Model of `types.Tag`: both key and value are `*string`. -/
structure Ec2Tag where
  key : Option String
  value : Option String
  deriving Repr, DecidableEq

/-- Model of `types.Instance` as read by this provider: the instance ID
pointer, the tags, and the state name (`types.InstanceStateName` is a
string-typed enum; its zero value `""` models a missing state). -/
structure Ec2Instance where
  instanceId : Option String
  tags : List Ec2Tag
  stateName : String
  deriving Repr, DecidableEq

/-- Model of `params.ProviderInstance` (host-facing result shape). -/
structure ProviderInstance where
  providerID : String
  name : String
  osType : String
  osArch : String
  status : String
  deriving Repr, DecidableEq

/-- The zero value `params.ProviderInstance{}`. -/
def ProviderInstance.empty : ProviderInstance :=
  { providerID := "", name := "", osType := "", osArch := "", status := "" }

/-- One iteration of the tag loop in `util.AwsInstanceToParamsInstance`:
tags with a nil key or value are skipped, the three load-bearing tags set the
corresponding fields. -/
def applyTag (d : ProviderInstance) (t : Ec2Tag) : ProviderInstance :=
  match t.key, t.value with
  | some k, some v =>
    if k = "Name" then { d with name := v }
    else if k = "OSType" then { d with osType := v }
    else if k = "OSArch" then { d with osArch := v }
    else d
  | _, _ => d

/-- `util.AwsInstanceToParamsInstance`: nil instance ID is an error; the tag
loop fills name/OSType/OSArch; the switch on the state name collapses the
cloud states into running/stopped/unknown. -/
def AwsInstanceToParamsInstance (i : Ec2Instance) : Except String ProviderInstance :=
  match i.instanceId with
  | none => .error "instance ID is nil"
  | some id =>
    let details := i.tags.foldl applyTag { ProviderInstance.empty with providerID := id }
    let st :=
      if i.stateName = "running" ∨ i.stateName = "shutting-down" ∨ i.stateName = "stopping" then
        "running"
      else if i.stateName = "stopped" ∨ i.stateName = "terminated" then
        "stopped"
      else
        "unknown"
    .ok { details with status := st }

/-! ### Error model

Go errors as used by this provider: the garm `errors.ErrNotFound` sentinel,
the EC2 `InvalidInstanceID.NotFound` API error (recognised by
`util.IsEC2NotFoundErr` via `errors.As`), other cloud API failures, wrapping
with `fmt.Errorf("...: %w", err)` (which preserves the chain for `errors.Is`),
and plain message errors (no wrapped cause). -/

inductive GError where
  | notFound : GError
  | ec2NotFound : GError
  | apiError : String → GError
  | wrapped : String → GError → GError
  | msgError : String → GError
  deriving Repr, DecidableEq

/-- `errors.Is(err, garmErrors.ErrNotFound)`: unwrap the `%w` chain looking
for the sentinel. -/
def GError.isNotFound : GError → Bool
  | .notFound => true
  | .wrapped _ e => e.isNotFound
  | _ => false

/-- `util.IsEC2NotFoundErr`: `errors.As` finds an API error with code
`InvalidInstanceID.NotFound` in the chain. -/
def GError.isEC2NotFound : GError → Bool
  | .ec2NotFound => true
  | .wrapped _ e => e.isEC2NotFound
  | _ => false

/-! ### Compute client adapter (internal/client/aws.go) -/

/-- One DescribeInstances filter (`types.Filter`). -/
structure Ec2Filter where
  name : String
  values : List String
  deriving Repr, DecidableEq

/-- `ec2.DescribeInstancesInput` as built by this provider. -/
structure DescribeInstancesInput where
  instanceIds : List String
  filters : List Ec2Filter
  deriving Repr, DecidableEq

/-- `types.Reservation`. -/
structure Reservation where
  instances : List Ec2Instance
  deriving Repr, DecidableEq

/-- The EC2 SDK client modelled as response oracles for the operations the
adapter consumes (`client.ClientInterface`). -/
structure Ec2Client where
  describeInstances : DescribeInstancesInput → Except GError (List Reservation)
  startInstances : List String → Except GError Unit
  stopInstances : List String → Except GError Unit
  terminateInstances : List String → Except GError Unit

/-- A cloud API call issued by the provider, for reasoning about which calls
an operation performs. -/
inductive ApiCall where
  | describeInstances : DescribeInstancesInput → ApiCall
  | startInstances : List String → ApiCall
  | stopInstances : List String → ApiCall
  | terminateInstances : List String → ApiCall
  deriving Repr, DecidableEq

/-- Model of `strings.HasPrefix` (kernel-reducible, unlike
`String.startsWith`). -/
def stringStartsWith (s pre : String) : Bool :=
  pre.data.isPrefixOf s.data

/-- `client.AwsCli` (the config field is not read by the modelled paths). -/
structure AwsCli where
  client : Ec2Client

/-- The DescribeInstances input built by `AwsCli.FindInstances`: controller-ID
tag, Name tag, and the fixed non-terminal state filter. -/
def findInstancesInput (controllerID instanceName : String) : DescribeInstancesInput :=
  { instanceIds := []
    filters :=
      [ { name := "tag:GARM_CONTROLLER_ID", values := [controllerID] },
        { name := "tag:Name", values := [instanceName] },
        { name := "instance-state-name", values := ["pending", "running", "stopping", "stopped"] } ] }

/-- The DescribeInstances input built by `AwsCli.GetInstance`. -/
def getInstanceInput (vmName : String) : DescribeInstancesInput :=
  { instanceIds := [vmName]
    filters :=
      [ { name := "instance-state-name", values := ["pending", "running", "stopping", "stopped"] } ] }

/-- Flatten `resp.Reservations` into one instance list (the loop appending
`reserv.Instances`). -/
def flattenReservations (rs : List Reservation) : List Ec2Instance :=
  rs.foldl (fun acc r => acc ++ r.instances) []

/-- `AwsCli.FindInstances`: describe by tags, wrap a failure, flatten. -/
def AwsCli.FindInstances (a : AwsCli) (controllerID instanceName : String) :
    Except GError (List Ec2Instance) × List ApiCall :=
  let input := findInstancesInput controllerID instanceName
  (match a.client.describeInstances input with
   | .error e => .error (.wrapped "failed to find instances by tags" e)
   | .ok rs => .ok (flattenReservations rs),
   [ApiCall.describeInstances input])

/-- `AwsCli.GetInstance`: describe by instance ID; zero matches is wrapped
`ErrNotFound`. -/
def AwsCli.GetInstance (a : AwsCli) (vmName : String) :
    Except GError Ec2Instance × List ApiCall :=
  let input := getInstanceInput vmName
  (match a.client.describeInstances input with
   | .error e => .error (.wrapped "failed to get instance" e)
   | .ok rs =>
     match flattenReservations rs with
     | [] => .error (.wrapped ("no such instance " ++ vmName) .notFound)
     | inst :: _ => .ok inst,
   [ApiCall.describeInstances input])

/-- `AwsCli.FindOneInstance`: ID-shaped names go through `GetInstance`;
otherwise the tag lookup runs and — as in the source — a failure of
`FindInstances` is reported as a wrapped `errors.ErrNotFound` (the underlying
error is discarded); more than one match is an ambiguity error; zero matches
is a wrapped `errors.ErrNotFound`. -/
def AwsCli.FindOneInstance (a : AwsCli) (controllerID instanceName : String) :
    Except GError Ec2Instance × List ApiCall :=
  if stringStartsWith instanceName "i-" then
    match a.GetInstance instanceName with
    | (.error e, lg) => (.error (.wrapped ("failed to get instance " ++ instanceName) e), lg)
    | (.ok inst, lg) => (.ok inst, lg)
  else
    match a.FindInstances controllerID instanceName with
    | (.error _, lg) =>
      (.error (.wrapped ("failed to find instance " ++ instanceName) .notFound), lg)
    | (.ok resp, lg) =>
      match resp with
      | [] => (.error (.wrapped ("no such instance " ++ instanceName) .notFound), lg)
      | [inst] => (.ok inst, lg)
      | _ :: _ :: _ =>
        (.error (.msgError ("found more than one instance with name " ++ instanceName)), lg)

/-- `AwsCli.StartInstance`. -/
def AwsCli.StartInstance (a : AwsCli) (vmName : String) :
    Except GError Unit × List ApiCall :=
  (match a.client.startInstances [vmName] with
   | .error e => .error (.wrapped "failed to start instance" e)
   | .ok _ => .ok (),
   [ApiCall.startInstances [vmName]])

/-- `AwsCli.StopInstance`. -/
def AwsCli.StopInstance (a : AwsCli) (vmName : String) :
    Except GError Unit × List ApiCall :=
  (match a.client.stopInstances [vmName] with
   | .error e => .error (.wrapped "failed to stop instance" e)
   | .ok _ => .ok (),
   [ApiCall.stopInstances [vmName]])

/-- `AwsCli.TerminateInstance`: an `InvalidInstanceID.NotFound` API error is
treated as success (idempotent delete). -/
def AwsCli.TerminateInstance (a : AwsCli) (vmName : String) :
    Except GError Unit × List ApiCall :=
  (match a.client.terminateInstances [vmName] with
   | .error e =>
     if e.isEC2NotFound then .ok ()
     else .error (.wrapped "failed to terminate instance" e)
   | .ok _ => .ok (),
   [ApiCall.terminateInstances [vmName]])

/-! ### Provider facade (provider/provider.go) -/

structure AwsProvider where
  controllerID : String
  awsCli : AwsCli

/-- The tail of `AwsProvider.DeleteInstance` after the identifier is resolved:
an empty resolved ID returns success, otherwise terminate (wrapping a
failure). -/
def deleteResolved (a : AwsCli) (inst : String) : Except GError Unit × List ApiCall :=
  if inst = "" then (.ok (), [])
  else
    match a.TerminateInstance inst with
    | (.error e, lg) => (.error (.wrapped "failed to terminate instance" e), lg)
    | (.ok _, lg) => (.ok (), lg)

/-- `AwsProvider.DeleteInstance`: ID-shaped identifiers are terminated
directly; otherwise the name is resolved via `FindOneInstance` with an empty
controller ID, a `NotFound` lookup result is treated as already deleted, a nil
instance ID in the result is an error (the Go code wraps the — by then nil —
`err` value), and the resolved ID is terminated. -/
def AwsProvider.DeleteInstance (p : AwsProvider) (vmName : String) :
    Except GError Unit × List ApiCall :=
  if stringStartsWith vmName "i-" then
    deleteResolved p.awsCli vmName
  else
    match p.awsCli.FindOneInstance "" vmName with
    | (.error e, lg) =>
      if e.isNotFound then (.ok (), lg)
      else (.error (.wrapped "failed to determine instance" e), lg)
    | (.ok tmp, lg) =>
      match tmp.instanceId with
      | none => (.error (.msgError "failed to determine instance: %!w(<nil>)"), lg)
      | some id =>
        match deleteResolved p.awsCli id with
        | (res, lg2) => (res, lg ++ lg2)

/-- `AwsProvider.GetInstance`: look up by ID or name (empty controller ID); a
record with no native ID yields the empty result without error. -/
def AwsProvider.GetInstance (p : AwsProvider) (vmName : String) :
    Except GError ProviderInstance × List ApiCall :=
  match p.awsCli.FindOneInstance "" vmName with
  | (.error e, lg) => (.error (.wrapped "failed to get VM details" e), lg)
  | (.ok awsInstance, lg) =>
    match awsInstance.instanceId with
    | none => (.ok ProviderInstance.empty, lg)
    | some _ =>
      match AwsInstanceToParamsInstance awsInstance with
      | .error msg => (.error (.wrapped "failed to convert instance" (.msgError msg)), lg)
      | .ok pi => (.ok pi, lg)

/-- `AwsProvider.Start`: look up the instance (empty controller ID); reject a
"stopping" state with an error naming the identifier and the state; otherwise
issue start-by-ID. -/
def AwsProvider.Start (p : AwsProvider) (vmName : String) :
    Except GError Unit × List ApiCall :=
  match p.awsCli.FindOneInstance "" vmName with
  | (.error e, lg) => (.error (.wrapped "failed to determine instance" e), lg)
  | (.ok awsInstance, lg) =>
    if awsInstance.stateName = "stopping" then
      (.error (.msgError ("instance " ++ vmName ++ " cannot be started in " ++
        awsInstance.stateName ++ " state")), lg)
    else
      match p.awsCli.StartInstance vmName with
      | (res, lg2) => (res, lg ++ lg2)

/-- `AwsProvider.Stop`: direct stop-by-ID, no state precondition. -/
def AwsProvider.Stop (p : AwsProvider) (vmName : String) :
    Except GError Unit × List ApiCall :=
  p.awsCli.StopInstance vmName

/-- `AwsProvider.CreateInstance`: build the runner spec (tool fetch function
and config injected as in the source, where they are a package global and the
CLI's config), then launch.  `launch` stands for `AwsCli.CreateRunningInstance`
(whose user-data composition delegates to the external cloud-init
collaborator). -/
def AwsProvider.CreateInstance (p : AwsProvider) (toolFetch : ToolFetchFunc)
    (cfg : Config) (launch : RunnerSpec → Except GError String)
    (bootstrapParams : BootstrapInstance) : Except GError ProviderInstance :=
  match GetRunnerSpecFromBootstrapParams toolFetch cfg bootstrapParams p.controllerID with
  | .error e => .error (.wrapped "failed to get runner spec" (.msgError e))
  | .ok s =>
    match launch s with
    | .error e => .error (.wrapped "failed to create instance" e)
    | .ok instanceID =>
      .ok { providerID := instanceID
            name := s.bootstrapParams.name
            osType := s.bootstrapParams.osType
            osArch := s.bootstrapParams.osArch
            status := "running" }

/-! ### Concrete fixtures used by witnesses and counterexamples -/

def toolsFixture : RunnerApplicationDownload :=
  { os := some "linux", architecture := some "amd64"
    downloadURL := some "https://example.com/runner.tgz", filename := some "runner.tgz" }

def bpFixture : BootstrapInstance :=
  { name := "garm-instance", poolID := "pool-1", osType := "linux", osArch := "amd64"
    image := "ami-12345678", flavor := "t2.micro", tools := [toolsFixture], extraSpecs := "{}" }

def bpEmptySpecs : BootstrapInstance :=
  { bpFixture with extraSpecs := "" }

def specFixture : RunnerSpec :=
  { region := "us-east-1", disableUpdates := false, extraPackages := [], enableBootDebug := false
    tools := toolsFixture, bootstrapParams := bpFixture, securityGroupIds := []
    subnetID := "subnet-0a0a0a0a0a0a0a0a0", sshKeyName := none, iops := none, throughput := none
    volumeSize := none, volumeType := "", controllerID := "controller-1" }

/-- A merged spec with the volume type left unset and a volume size inside
[1,16384] but outside [1,1024]. -/
def specUnsetTypeBigSize : RunnerSpec :=
  { specFixture with volumeSize := some 2000 }

def toolFetchFixture : ToolFetchFunc := fun _ _ _ => .ok toolsFixture

def launchFixture : RunnerSpec → Except GError String := fun _ => .ok "i-0aa111bb222cc333d"

def cfgFixture : Config :=
  { region := "us-east-1", subnetID := "subnet-0a0a0a0a0a0a0a0a0" }

/-- A cloud whose DescribeInstances call fails with a hard API error. -/
def clientDescribeFails : Ec2Client :=
  { describeInstances := fun _ => .error (.apiError "RequestExpired")
    startInstances := fun _ => .ok (), stopInstances := fun _ => .ok ()
    terminateInstances := fun _ => .ok () }

def pDescribeFails : AwsProvider :=
  { controllerID := "controller-1", awsCli := { client := clientDescribeFails } }

/-- A cloud with no matching instances. -/
def clientNoMatches : Ec2Client :=
  { describeInstances := fun _ => .ok []
    startInstances := fun _ => .ok (), stopInstances := fun _ => .ok ()
    terminateInstances := fun _ => .ok () }

def pNoMatches : AwsProvider :=
  { controllerID := "controller-1", awsCli := { client := clientNoMatches } }

/-- A cloud whose TerminateInstances call fails with the EC2 not-found code. -/
def clientTerminateGone : Ec2Client :=
  { describeInstances := fun _ => .ok []
    startInstances := fun _ => .ok (), stopInstances := fun _ => .ok ()
    terminateInstances := fun _ => .error .ec2NotFound }

def pTerminateGone : AwsProvider :=
  { controllerID := "controller-1", awsCli := { client := clientTerminateGone } }

def instStoppingFixture : Ec2Instance :=
  { instanceId := some "i-0aa111bb222cc333d", tags := [], stateName := "stopping" }

def instRunningFixture : Ec2Instance :=
  { instanceId := some "i-0aa111bb222cc333d"
    tags := [{ key := some "Name", value := some "garm-instance" }], stateName := "running" }

/-- A cloud that answers every DescribeInstances call with the one given
instance. -/
def clientReturning (i : Ec2Instance) : Ec2Client :=
  { describeInstances := fun _ => .ok [{ instances := [i] }]
    startInstances := fun _ => .ok (), stopInstances := fun _ => .ok ()
    terminateInstances := fun _ => .ok () }

def pStopping : AwsProvider :=
  { controllerID := "controller-1", awsCli := { client := clientReturning instStoppingFixture } }

def pRunning : AwsProvider :=
  { controllerID := "controller-1", awsCli := { client := clientReturning instRunningFixture } }

/-! ### Helper lemmas -/

lemma validate_checks (r : RunnerSpec) (hreg : r.region ≠ "")
    (hname : r.bootstrapParams.name ≠ "") :
    r.Validate =
      (match r.validateIops with
       | .error e => .error e
       | .ok _ =>
         match r.validateThroughput with
         | .error e => .error e
         | .ok _ =>
           match r.validateVolumeSize with
           | .error e => .error e
           | .ok _ => r.validateIopsRequired) := by
  simp [RunnerSpec.Validate, hreg, hname]

lemma validate_iops_error (r : RunnerSpec) (hreg : r.region ≠ "")
    (hname : r.bootstrapParams.name ≠ "") (e : String)
    (h : r.validateIops = .error e) : r.Validate = .error e := by
  rw [validate_checks r hreg hname, h]

lemma validate_size_error (r : RunnerSpec) (hreg : r.region ≠ "")
    (hname : r.bootstrapParams.name ≠ "")
    (h1 : r.validateIops = .ok ()) (h2 : r.validateThroughput = .ok ())
    (e : String) (h : r.validateVolumeSize = .error e) : r.Validate = .error e := by
  rw [validate_checks r hreg hname, h1, h2, h]

lemma validate_ok_chain (r : RunnerSpec) (hreg : r.region ≠ "")
    (hname : r.bootstrapParams.name ≠ "")
    (h1 : r.validateIops = .ok ()) (h2 : r.validateThroughput = .ok ())
    (h3 : r.validateVolumeSize = .ok ()) : r.Validate = r.validateIopsRequired := by
  rw [validate_checks r hreg hname, h1, h2, h3]

/-! ### Claim theorems -/

/-- C1: `RunnerSpec.Validate` enforces the iops/volume-type coupling.  With the
region/name checks passing: iops set with a volume type outside io1/io2/gp3
fails with the "only valid for io1, io2 and gp3" error; for io1/io2/gp3 an
out-of-range iops fails with an error naming the type and the inclusive range
[100,64000] / [100,256000] / [3000,16000] while an in-range value passes the
iops check; and a spec with volume type io1 or io2 and iops unset fails — once
the throughput and size checks pass, i.e. with the error the iops rule owns —
with the iops-must-be-specified error. -/
theorem c1_iops_volume_type_coupling (r : RunnerSpec)
    (hreg : r.region ≠ "") (hname : r.bootstrapParams.name ≠ "") :
    (∀ i, r.iops = some i →
      r.volumeType ≠ "io1" → r.volumeType ≠ "io2" → r.volumeType ≠ "gp3" →
      r.Validate = .error "EBS iops is only valid for volume types io1, io2 and gp3") ∧
    (∀ i, r.iops = some i → r.volumeType = "io1" → (i < 100 ∨ i > 64000) →
      r.Validate = .error ("EBS iops for volume type " ++ r.volumeType ++ " must be between 100 and 64000")) ∧
    (∀ i, r.iops = some i → r.volumeType = "io2" → (i < 100 ∨ i > 256000) →
      r.Validate = .error ("EBS iops for volume type " ++ r.volumeType ++ " must be between 100 and 256000")) ∧
    (∀ i, r.iops = some i → r.volumeType = "gp3" → (i < 3000 ∨ i > 16000) →
      r.Validate = .error ("EBS iops for volume type " ++ r.volumeType ++ " must be between 3000 and 16000")) ∧
    (∀ i, r.iops = some i → r.volumeType = "io1" → 100 ≤ i → i ≤ 64000 →
      r.validateIops = .ok ()) ∧
    (∀ i, r.iops = some i → r.volumeType = "io2" → 100 ≤ i → i ≤ 256000 →
      r.validateIops = .ok ()) ∧
    (∀ i, r.iops = some i → r.volumeType = "gp3" → 3000 ≤ i → i ≤ 16000 →
      r.validateIops = .ok ()) ∧
    (r.iops = none → (r.volumeType = "io1" ∨ r.volumeType = "io2") →
      r.validateThroughput = .ok () → r.validateVolumeSize = .ok () →
      r.Validate = .error ("the parameter iops must be specified for " ++ r.volumeType ++ " volumes")) := by
  refine ⟨?_, ?_, ?_, ?_, ?_, ?_, ?_, ?_⟩
  · intro i hi h1 h2 h3
    exact validate_iops_error r hreg hname _ (by simp [RunnerSpec.validateIops, hi, h1, h2, h3])
  · intro i hi hv hr
    exact validate_iops_error r hreg hname _ (by simp [RunnerSpec.validateIops, hi, hv, hr])
  · intro i hi hv hr
    exact validate_iops_error r hreg hname _ (by simp [RunnerSpec.validateIops, hi, hv, hr])
  · intro i hi hv hr
    exact validate_iops_error r hreg hname _ (by simp [RunnerSpec.validateIops, hi, hv, hr])
  · intro i hi hv hlo hhi
    simp [RunnerSpec.validateIops, hi, hv]
    omega
  · intro i hi hv hlo hhi
    simp [RunnerSpec.validateIops, hi, hv]
    omega
  · intro i hi hv hlo hhi
    simp [RunnerSpec.validateIops, hi, hv]
    omega
  · intro hnone hv h2 h3
    have h1 : r.validateIops = .ok () := by simp [RunnerSpec.validateIops, hnone]
    rw [validate_ok_chain r hreg hname h1 h2 h3]
    rcases hv with hv | hv <;>
      simp [RunnerSpec.validateIopsRequired, hv, hnone]

/-- C1 witness: a concrete merged spec with volume type io1 and no iops is
rejected with the iops-must-be-specified error, and a gp3 spec with iops 2999
is rejected with the gp3 range error. -/
theorem c1_iops_volume_type_coupling_witness :
    ({ specFixture with volumeType := "io1" } : RunnerSpec).Validate =
      .error "the parameter iops must be specified for io1 volumes" ∧
    ({ specFixture with volumeType := "gp3", iops := some 2999 } : RunnerSpec).Validate =
      .error "EBS iops for volume type gp3 must be between 3000 and 16000" := by
  constructor
  · exact (c1_iops_volume_type_coupling _ (by decide) (by decide)).2.2.2.2.2.2.2
      rfl (Or.inl rfl) rfl rfl
  · exact (c1_iops_volume_type_coupling _ (by decide) (by decide)).2.2.2.1
      2999 rfl rfl (by norm_num)

/-- C7: validation error precedence — when both the iops rule (iops set with a
volume type outside io1/io2/gp3) and the throughput rule (throughput set with
a volume type other than gp3) are violated, `Validate` reports the iops error,
not the throughput error. -/
theorem c7_iops_error_precedence (r : RunnerSpec) (i t : Int)
    (hreg : r.region ≠ "") (hname : r.bootstrapParams.name ≠ "")
    (hiops : r.iops = some i) (hthr : r.throughput = some t)
    (h1 : r.volumeType ≠ "io1") (h2 : r.volumeType ≠ "io2") (h3 : r.volumeType ≠ "gp3") :
    r.Validate = .error "EBS iops is only valid for volume types io1, io2 and gp3" ∧
    r.Validate ≠ .error "EBS throughput is only valid for volume type gp3" := by
  have h : r.Validate = .error "EBS iops is only valid for volume types io1, io2 and gp3" :=
    validate_iops_error r hreg hname _ (by simp [RunnerSpec.validateIops, hiops, h1, h2, h3])
  refine ⟨h, ?_⟩
  rw [h]
  intro hcontra
  have := Except.error.inj hcontra
  simp at this

/-- C7 witness: a concrete spec violating both rules (iops and throughput set,
volume type st1) yields the iops error. -/
theorem c7_iops_error_precedence_witness :
    ({ specFixture with iops := some 200, throughput := some 200, volumeType := "st1" } : RunnerSpec).Validate =
      .error "EBS iops is only valid for volume types io1, io2 and gp3" :=
  (c7_iops_error_precedence _ 200 200 (by decide) (by decide) rfl rfl
    (by decide) (by decide) (by decide)).1

/-- C8: merge identity — merging an `ExtraSpecs` value in which every field is
absent (nil pointers, empty strings, empty lists) leaves the `RunnerSpec`
unchanged. -/
theorem c8_merge_identity (r : RunnerSpec) (es : ExtraSpecs)
    (h1 : es.subnetID = none) (h2 : es.sshKeyName = none) (h3 : es.iops = none)
    (h4 : es.throughput = none) (h5 : es.volumeSize = none) (h6 : es.volumeType = "")
    (h7 : es.securityGroupIds = []) (h8 : es.disableUpdates = none)
    (h9 : es.enableBootDebug = none) (h10 : es.extraPackages = [])
    (h11 : es.runnerInstallTemplate = none) (h12 : es.extraContext = [])
    (h13 : es.preInstallScripts = []) :
    r.MergeExtraSpecs es = r := by
  simp [RunnerSpec.MergeExtraSpecs, h1, h2, h3, h4, h5, h6, h7, h8, h9]

/-- C8 witness: merging the zero-valued extra specs into a concrete spec is
the identity. -/
theorem c8_merge_identity_witness :
    specFixture.MergeExtraSpecs ExtraSpecs.empty = specFixture :=
  c8_merge_identity specFixture ExtraSpecs.empty rfl rfl rfl rfl rfl rfl rfl rfl rfl
    rfl rfl rfl rfl

/-- C2 counterexample: the claim gives the unset volume type the gp2/gp3 size
range [1,16384], but the code places the unset (empty) type in the `standard`
bucket: a spec with no volume type and volume size 2000 — inside [1,16384] —
is rejected with the 1..1024 standard-range error. -/
theorem c2_unset_volume_type_counterexample :
    specUnsetTypeBigSize.volumeType = "" ∧
    specUnsetTypeBigSize.volumeSize = some 2000 ∧
    (1 ≤ (2000 : Int) ∧ (2000 : Int) ≤ 16384) ∧
    specUnsetTypeBigSize.Validate =
      .error "EBS volume size for volume type standard must be between 1 and 1024" :=
  ⟨rfl, rfl, by norm_num, rfl⟩

/-- C2 (amended): with the earlier checks passing, the size check enforces
io1/io2 [4,16384], gp2/gp3 [1,16384], st1/sc1 [125,16384], standard or
unset/empty [1,1024]; any other volume type is rejected outright; an in-range
size passes the size check and validation continues with the final iops-required
rule. -/
theorem c2_volume_size_ranges (r : RunnerSpec) (s : Int)
    (hreg : r.region ≠ "") (hname : r.bootstrapParams.name ≠ "")
    (hiops : r.validateIops = .ok ()) (hthr : r.validateThroughput = .ok ())
    (hsize : r.volumeSize = some s) :
    ((r.volumeType = "io1" ∨ r.volumeType = "io2") → (s < 4 ∨ s > 16384) →
      r.Validate = .error ("EBS volume size for volume type " ++ r.volumeType ++ " must be between 4 and 16384")) ∧
    ((r.volumeType = "gp2" ∨ r.volumeType = "gp3") → (s < 1 ∨ s > 16384) →
      r.Validate = .error ("EBS volume size for volume type " ++ r.volumeType ++ " must be between 1 and 16384")) ∧
    ((r.volumeType = "st1" ∨ r.volumeType = "sc1") → (s < 125 ∨ s > 16384) →
      r.Validate = .error ("EBS volume size for volume type " ++ r.volumeType ++ " must be between 125 and 16384")) ∧
    ((r.volumeType = "standard" ∨ r.volumeType = "") → (s < 1 ∨ s > 1024) →
      r.Validate = .error "EBS volume size for volume type standard must be between 1 and 1024") ∧
    (r.volumeType ≠ "io1" → r.volumeType ≠ "io2" → r.volumeType ≠ "gp2" →
      r.volumeType ≠ "gp3" → r.volumeType ≠ "st1" → r.volumeType ≠ "sc1" →
      r.volumeType ≠ "standard" → r.volumeType ≠ "" →
      r.Validate = .error "EBS volume size is only valid for volume types io1, io2, gp2, gp3, st1, sc1 and standard") ∧
    ((r.volumeType = "io1" ∨ r.volumeType = "io2") → 4 ≤ s → s ≤ 16384 →
      r.Validate = r.validateIopsRequired) ∧
    ((r.volumeType = "gp2" ∨ r.volumeType = "gp3") → 1 ≤ s → s ≤ 16384 →
      r.Validate = r.validateIopsRequired) ∧
    ((r.volumeType = "st1" ∨ r.volumeType = "sc1") → 125 ≤ s → s ≤ 16384 →
      r.Validate = r.validateIopsRequired) ∧
    ((r.volumeType = "standard" ∨ r.volumeType = "") → 1 ≤ s → s ≤ 1024 →
      r.Validate = r.validateIopsRequired) := by
  refine ⟨?_, ?_, ?_, ?_, ?_, ?_, ?_, ?_, ?_⟩
  · rintro (hv | hv) hr <;>
      exact validate_size_error r hreg hname hiops hthr _
        (by simp [RunnerSpec.validateVolumeSize, hsize, hv, hr])
  · rintro (hv | hv) hr <;>
      exact validate_size_error r hreg hname hiops hthr _
        (by simp [RunnerSpec.validateVolumeSize, hsize, hv, hr])
  · rintro (hv | hv) hr <;>
      exact validate_size_error r hreg hname hiops hthr _
        (by simp [RunnerSpec.validateVolumeSize, hsize, hv, hr])
  · rintro (hv | hv) hr <;>
      exact validate_size_error r hreg hname hiops hthr _
        (by simp [RunnerSpec.validateVolumeSize, hsize, hv, hr])
  · intro h1 h2 h3 h4 h5 h6 h7 h8
    exact validate_size_error r hreg hname hiops hthr _
      (by simp [RunnerSpec.validateVolumeSize, hsize, h1, h2, h3, h4, h5, h6, h7, h8])
  · rintro (hv | hv) hlo hhi <;>
      refine validate_ok_chain r hreg hname hiops hthr
        (by simp [RunnerSpec.validateVolumeSize, hsize, hv]; omega)
  · rintro (hv | hv) hlo hhi <;>
      refine validate_ok_chain r hreg hname hiops hthr
        (by simp [RunnerSpec.validateVolumeSize, hsize, hv]; omega)
  · rintro (hv | hv) hlo hhi <;>
      refine validate_ok_chain r hreg hname hiops hthr
        (by simp [RunnerSpec.validateVolumeSize, hsize, hv]; omega)
  · rintro (hv | hv) hlo hhi <;>
      refine validate_ok_chain r hreg hname hiops hthr
        (by simp [RunnerSpec.validateVolumeSize, hsize, hv]; omega)

/-- C2 witness: a concrete st1 spec with size 100 is rejected with the
125..16384 error, and a gp3 spec with size 50 and iops 3000 validates. -/
theorem c2_volume_size_ranges_witness :
    ({ specFixture with volumeType := "st1", volumeSize := some 100 } : RunnerSpec).Validate =
      .error "EBS volume size for volume type st1 must be between 125 and 16384" ∧
    ({ specFixture with volumeType := "gp3", iops := some 3000, volumeSize := some 50 } : RunnerSpec).Validate =
      .ok () := by
  constructor
  · exact (c2_volume_size_ranges
      ({ specFixture with volumeType := "st1", volumeSize := some 100 } : RunnerSpec)
      100 (by decide) (by decide) rfl rfl rfl).2.2.1 (Or.inl rfl) (by norm_num)
  · have h := (c2_volume_size_ranges
      ({ specFixture with volumeType := "gp3", iops := some 3000, volumeSize := some 50 } : RunnerSpec)
      50 (by decide) (by decide) rfl rfl rfl).2.2.2.2.2.2.1
      (Or.inr rfl) (by norm_num) (by norm_num)
    rw [h]
    rfl

lemma applyTag_keeps (d : ProviderInstance) (t : Ec2Tag) :
    (applyTag d t).providerID = d.providerID ∧ (applyTag d t).status = d.status := by
  unfold applyTag
  rcases t with ⟨k, v⟩
  rcases k with _ | k <;> rcases v with _ | v <;> (simp; try split_ifs) <;> simp

lemma foldl_applyTag_keeps (tags : List Ec2Tag) (d : ProviderInstance) :
    (tags.foldl applyTag d).providerID = d.providerID ∧
    (tags.foldl applyTag d).status = d.status := by
  induction tags generalizing d with
  | nil => exact ⟨rfl, rfl⟩
  | cons t ts ih =>
    simp only [List.foldl_cons]
    obtain ⟨ha, hb⟩ := ih (applyTag d t)
    obtain ⟨hc, hd⟩ := applyTag_keeps d t
    exact ⟨ha.trans hc, hb.trans hd⟩

/-- C3: `AwsInstanceToParamsInstance` maps a record with a non-nil instance ID
to a `ProviderInstance` carrying that ID, whose status is "running" for state
names running/shutting-down/stopping, "stopped" for stopped/terminated, and
"unknown" for anything else — including an unrecognized state name and a
missing state (the string enum's zero value ""). -/
theorem c3_state_mapping (inst : Ec2Instance) (id : String)
    (h : inst.instanceId = some id) :
    ∃ pi, AwsInstanceToParamsInstance inst = .ok pi ∧ pi.providerID = id ∧
      ((inst.stateName = "running" ∨ inst.stateName = "shutting-down" ∨
        inst.stateName = "stopping") → pi.status = "running") ∧
      ((inst.stateName = "stopped" ∨ inst.stateName = "terminated") →
        pi.status = "stopped") ∧
      (inst.stateName ≠ "running" → inst.stateName ≠ "shutting-down" →
       inst.stateName ≠ "stopping" → inst.stateName ≠ "stopped" →
       inst.stateName ≠ "terminated" → pi.status = "unknown") := by
  refine ⟨_, by rw [AwsInstanceToParamsInstance, h], ?_, ?_, ?_, ?_⟩
  · exact (foldl_applyTag_keeps inst.tags _).1
  · intro hs
    rcases hs with hs | hs | hs <;> simp [hs]
  · intro hs
    rcases hs with hs | hs <;> simp [hs]
  · intro h1 h2 h3 h4 h5
    simp [h1, h2, h3, h4, h5]

/-- C3 witness: concrete records in state "stopping" map to status "running",
in state "terminated" to "stopped", and with a missing state name to
"unknown"; the provider ID is carried over. -/
theorem c3_state_mapping_witness :
    (∃ pi, AwsInstanceToParamsInstance instStoppingFixture = .ok pi ∧
      pi.providerID = "i-0aa111bb222cc333d" ∧ pi.status = "running") ∧
    (∃ pi, AwsInstanceToParamsInstance { instStoppingFixture with stateName := "terminated" } = .ok pi ∧
      pi.status = "stopped") ∧
    (∃ pi, AwsInstanceToParamsInstance { instStoppingFixture with stateName := "" } = .ok pi ∧
      pi.status = "unknown") := by
  refine ⟨?_, ?_, ?_⟩
  · obtain ⟨pi, h1, h2, h3, _, _⟩ := c3_state_mapping instStoppingFixture "i-0aa111bb222cc333d" rfl
    exact ⟨pi, h1, h2, h3 (Or.inr (Or.inr rfl))⟩
  · obtain ⟨pi, h1, _, _, h4, _⟩ :=
      c3_state_mapping { instStoppingFixture with stateName := "terminated" } "i-0aa111bb222cc333d" rfl
    exact ⟨pi, h1, h4 (Or.inr rfl)⟩
  · obtain ⟨pi, h1, _, _, _, h5⟩ :=
      c3_state_mapping { instStoppingFixture with stateName := "" } "i-0aa111bb222cc333d" rfl
    exact ⟨pi, h1, h5 (by decide) (by decide) (by decide) (by decide) (by decide)⟩

/-- C4 (code bug evidence): a hard cloud-API failure of the DescribeInstances
call during the tag-based name lookup is rewrapped by `FindOneInstance` as a
`NotFound` error (the underlying error is discarded), and `DeleteInstance`
consequently treats it as already-deleted and returns success without issuing
any terminate call — a hard error converted into a success, contrary to the
stated propagation policy. -/
theorem c4_delete_swallows_lookup_api_error :
    pDescribeFails.awsCli.client.describeInstances (findInstancesInput "" "garm-instance") =
      .error (.apiError "RequestExpired") ∧
    (pDescribeFails.awsCli.FindOneInstance "" "garm-instance").1 =
      .error (.wrapped "failed to find instance garm-instance" .notFound) ∧
    (pDescribeFails.DeleteInstance "garm-instance").1 = .ok () ∧
    (pDescribeFails.DeleteInstance "garm-instance").2 =
      [ApiCall.describeInstances (findInstancesInput "" "garm-instance")] :=
  ⟨rfl, rfl, rfl, rfl⟩

lemma findInstances_snd (a : AwsCli) (cid n : String) :
    (a.FindInstances cid n).2 = [ApiCall.describeInstances (findInstancesInput cid n)] := rfl

lemma getInstance_snd (a : AwsCli) (n : String) :
    (a.GetInstance n).2 = [ApiCall.describeInstances (getInstanceInput n)] := rfl

lemma startInstance_snd (a : AwsCli) (n : String) :
    (a.StartInstance n).2 = [ApiCall.startInstances [n]] := rfl

/-- Any lookup issues exactly one DescribeInstances call. -/
lemma findOneInstance_log (a : AwsCli) (cid n : String) :
    ∃ input, (a.FindOneInstance cid n).2 = [ApiCall.describeInstances input] := by
  unfold AwsCli.FindOneInstance
  by_cases hp : stringStartsWith n "i-" = true
  · rw [if_pos hp]
    rcases hg : a.GetInstance n with ⟨res, lg⟩
    have hlg : lg = [ApiCall.describeInstances (getInstanceInput n)] :=
      ((congrArg Prod.snd hg).symm).trans (getInstance_snd a n)
    refine ⟨getInstanceInput n, ?_⟩
    cases res <;> simp [hlg]
  · rw [if_neg hp]
    rcases hf : a.FindInstances cid n with ⟨res, lg⟩
    have hlg : lg = [ApiCall.describeInstances (findInstancesInput cid n)] :=
      ((congrArg Prod.snd hf).symm).trans (findInstances_snd a cid n)
    refine ⟨findInstancesInput cid n, ?_⟩
    rcases res with e | resp
    · simp [hlg]
    · rcases resp with _ | ⟨x, _ | ⟨y, zs⟩⟩ <;> simp [hlg]

/-- A name-shaped lookup issues exactly the tag-filtered DescribeInstances
call. -/
lemma findOneInstance_log_name (a : AwsCli) (cid n : String)
    (hp : stringStartsWith n "i-" = false) :
    (a.FindOneInstance cid n).2 = [ApiCall.describeInstances (findInstancesInput cid n)] := by
  unfold AwsCli.FindOneInstance
  rw [if_neg (by simp [hp])]
  rcases hf : a.FindInstances cid n with ⟨res, lg⟩
  have hlg : lg = [ApiCall.describeInstances (findInstancesInput cid n)] :=
    ((congrArg Prod.snd hf).symm).trans (findInstances_snd a cid n)
  rcases res with e | resp
  · simp [hlg]
  · rcases resp with _ | ⟨x, _ | ⟨y, zs⟩⟩ <;> simp [hlg]

lemma getInstance_facade_log (p : AwsProvider) (n : String) :
    (p.GetInstance n).2 = (p.awsCli.FindOneInstance "" n).2 := by
  unfold AwsProvider.GetInstance
  rcases hf : p.awsCli.FindOneInstance "" n with ⟨res, lg⟩
  rcases res with e | inst
  · simp
  · rcases hi : inst.instanceId with _ | id
    · simp [hi]
    · rcases hc : AwsInstanceToParamsInstance inst with e2 | pi <;> simp [hi, hc]

lemma deleteInstance_facade_log (p : AwsProvider) (n : String)
    (hp : stringStartsWith n "i-" = false) :
    ∃ rest, (p.DeleteInstance n).2 = (p.awsCli.FindOneInstance "" n).2 ++ rest := by
  unfold AwsProvider.DeleteInstance
  rw [if_neg (by simp [hp])]
  rcases hf : p.awsCli.FindOneInstance "" n with ⟨res, lg⟩
  rcases res with e | tmp
  · cases he : e.isNotFound <;> exact ⟨[], by simp [he]⟩
  · rcases hi : tmp.instanceId with _ | id
    · exact ⟨[], by simp [hi]⟩
    · rcases hd : deleteResolved p.awsCli id with ⟨res2, lg2⟩
      exact ⟨lg2, by simp [hi, hd]⟩

lemma start_facade_log (p : AwsProvider) (n : String) :
    ∃ rest, (p.Start n).2 = (p.awsCli.FindOneInstance "" n).2 ++ rest := by
  unfold AwsProvider.Start
  rcases hf : p.awsCli.FindOneInstance "" n with ⟨res, lg⟩
  rcases res with e | inst
  · exact ⟨[], by simp⟩
  · by_cases hs : inst.stateName = "stopping"
    · exact ⟨[], by simp [hs]⟩
    · exact ⟨(p.awsCli.StartInstance n).2, by simp [hs]⟩

lemma stringStartsWith_ne_empty (s : String) (h : stringStartsWith s "i-" = true) :
    s ≠ "" := by
  intro he
  rw [he] at h
  exact absurd h (by decide)

/-- C5: delete idempotence — a name-shaped identifier whose tag lookup yields
`NotFound` makes `DeleteInstance` succeed without issuing any terminate call,
and a native ID whose terminate call fails with the EC2 not-found error also
makes `DeleteInstance` succeed. -/
theorem c5_delete_idempotent (p : AwsProvider) :
    (∀ n e lg, stringStartsWith n "i-" = false →
      p.awsCli.FindOneInstance "" n = (.error e, lg) → e.isNotFound = true →
      (p.DeleteInstance n).1 = .ok () ∧
      ∀ ids, ApiCall.terminateInstances ids ∉ (p.DeleteInstance n).2) ∧
    (∀ vmId e, stringStartsWith vmId "i-" = true →
      p.awsCli.client.terminateInstances [vmId] = .error e → e.isEC2NotFound = true →
      (p.DeleteInstance vmId).1 = .ok ()) := by
  constructor
  · intro n e lg hp hfind hnf
    have hdel : p.DeleteInstance n = (.ok (), lg) := by
      unfold AwsProvider.DeleteInstance
      rw [if_neg (by simp [hp]), hfind]
      simp [hnf]
    refine ⟨by rw [hdel], ?_⟩
    intro ids hmem
    rw [hdel] at hmem
    obtain ⟨input, hin⟩ := findOneInstance_log p.awsCli "" n
    rw [hfind] at hin
    simp at hin
    rw [hin] at hmem
    simp at hmem
  · intro vmId e hp hterm hec2
    have hne : vmId ≠ "" := stringStartsWith_ne_empty vmId hp
    have hti : p.awsCli.TerminateInstance vmId = (.ok (), [ApiCall.terminateInstances [vmId]]) := by
      unfold AwsCli.TerminateInstance
      rw [hterm]
      simp [hec2]
    unfold AwsProvider.DeleteInstance
    rw [if_pos (by simp [hp])]
    unfold deleteResolved
    rw [if_neg hne, hti]

/-- C5 witness: with no matching tagged instance, deleting the name-shaped
identifier succeeds with no terminate call; with a terminate call failing
not-found, deleting the native ID succeeds. -/
theorem c5_delete_idempotent_witness :
    ((pNoMatches.DeleteInstance "garm-instance").1 = .ok () ∧
      ApiCall.terminateInstances ["garm-instance"] ∉ (pNoMatches.DeleteInstance "garm-instance").2) ∧
    (pTerminateGone.DeleteInstance "i-0aa111bb222cc333d").1 = .ok () := by
  constructor
  · have h := (c5_delete_idempotent pNoMatches).1 "garm-instance"
      (.wrapped "no such instance garm-instance" .notFound)
      [ApiCall.describeInstances (findInstancesInput "" "garm-instance")]
      (by decide) rfl rfl
    exact ⟨h.1, h.2 ["garm-instance"]⟩
  · exact (c5_delete_idempotent pTerminateGone).2 "i-0aa111bb222cc333d" .ec2NotFound
      (by decide) rfl rfl

/-- C6: the start guard — when the looked-up instance is in state "stopping",
`Start` fails with an error whose message contains the identifier and the word
"stopping" and issues no start call; in any other looked-up state it issues
the start-by-ID call. -/
theorem c6_start_stopping_guard (p : AwsProvider) (n : String) (inst : Ec2Instance)
    (lg : List ApiCall) (h : p.awsCli.FindOneInstance "" n = (.ok inst, lg)) :
    (inst.stateName = "stopping" →
      (p.Start n).1 =
        .error (.msgError ("instance " ++ n ++ " cannot be started in stopping state")) ∧
      (∃ s1 s2, "instance " ++ n ++ " cannot be started in stopping state" = s1 ++ n ++ s2) ∧
      (∃ s1 s2, "instance " ++ n ++ " cannot be started in stopping state" = s1 ++ "stopping" ++ s2) ∧
      (∀ ids, ApiCall.startInstances ids ∉ (p.Start n).2)) ∧
    (inst.stateName ≠ "stopping" →
      ApiCall.startInstances [n] ∈ (p.Start n).2) := by
  constructor
  · intro hs
    have hstart : p.Start n =
        (.error (.msgError ("instance " ++ n ++ " cannot be started in " ++
          inst.stateName ++ " state")), lg) := by
      unfold AwsProvider.Start
      rw [h]
      simp [hs]
    rw [hs] at hstart
    refine ⟨?_, ⟨"instance ", " cannot be started in stopping state", rfl⟩,
      ⟨"instance " ++ n ++ " cannot be started in ", " state", ?_⟩, ?_⟩
    · rw [hstart]
      simp only [String.append_assoc]
      rfl
    · simp only [String.append_assoc]
      rfl
    · intro ids hmem
      rw [hstart] at hmem
      obtain ⟨input, hin⟩ := findOneInstance_log p.awsCli "" n
      rw [h] at hin
      simp at hin
      rw [hin] at hmem
      simp at hmem
  · intro hs
    have hstart : p.Start n = ((p.awsCli.StartInstance n).1, lg ++ [ApiCall.startInstances [n]]) := by
      unfold AwsProvider.Start
      rw [h]
      simp [hs]
      rcases hsi : p.awsCli.StartInstance n with ⟨res, lg2⟩
      have : lg2 = [ApiCall.startInstances [n]] :=
        ((congrArg Prod.snd hsi).symm).trans (startInstance_snd p.awsCli n)
      simp [this]
    rw [hstart]
    simp

/-- C6 witness: a looked-up instance in "stopping" state blocks start with the
documented message and no start call; one in "running" state leads to the
start-by-ID call. -/
theorem c6_start_stopping_guard_witness :
    ((pStopping.Start "garm-instance").1 =
      .error (.msgError "instance garm-instance cannot be started in stopping state") ∧
      ApiCall.startInstances ["garm-instance"] ∉ (pStopping.Start "garm-instance").2) ∧
    ApiCall.startInstances ["garm-instance"] ∈ (pRunning.Start "garm-instance").2 := by
  constructor
  · have h := (c6_start_stopping_guard pStopping "garm-instance" instStoppingFixture
      [ApiCall.describeInstances (findInstancesInput "" "garm-instance")] rfl).1 rfl
    exact ⟨h.1, h.2.2.2 ["garm-instance"]⟩
  · exact (c6_start_stopping_guard pRunning "garm-instance" instRunningFixture
      [ApiCall.describeInstances (findInstancesInput "" "garm-instance")] rfl).2 (by decide)

/-- C9: name-shaped lookups use an empty controller-ID: `GetInstance`,
`DeleteInstance` and `Start` all issue the DescribeInstances call whose
`tag:GARM_CONTROLLER_ID` filter matches the empty string, and none of the
three operations depends on the controller ID the provider was constructed
with. -/
theorem c9_lookup_empty_controller_id (p : AwsProvider) (n : String)
    (hp : stringStartsWith n "i-" = false) :
    ApiCall.describeInstances (findInstancesInput "" n) ∈ (p.GetInstance n).2 ∧
    ApiCall.describeInstances (findInstancesInput "" n) ∈ (p.DeleteInstance n).2 ∧
    ApiCall.describeInstances (findInstancesInput "" n) ∈ (p.Start n).2 ∧
    ({ name := "tag:GARM_CONTROLLER_ID", values := [""] } : Ec2Filter) ∈ (findInstancesInput "" n).filters ∧
    (∀ cid, AwsProvider.GetInstance { controllerID := cid, awsCli := p.awsCli } n = p.GetInstance n) ∧
    (∀ cid, AwsProvider.DeleteInstance { controllerID := cid, awsCli := p.awsCli } n = p.DeleteInstance n) ∧
    (∀ cid, AwsProvider.Start { controllerID := cid, awsCli := p.awsCli } n = p.Start n) := by
  refine ⟨?_, ?_, ?_, ?_, fun _ => rfl, fun _ => rfl, fun _ => rfl⟩
  · rw [getInstance_facade_log, findOneInstance_log_name p.awsCli "" n hp]
    simp
  · obtain ⟨rest, hr⟩ := deleteInstance_facade_log p n hp
    rw [hr, findOneInstance_log_name p.awsCli "" n hp]
    simp
  · obtain ⟨rest, hr⟩ := start_facade_log p n
    rw [hr, findOneInstance_log_name p.awsCli "" n hp]
    simp
  · simp [findInstancesInput]

/-- C9 witness: at a concrete provider and name, the lookup call with the
empty controller-ID filter is issued by `GetInstance`, and the filter list
indeed matches the controller tag against the empty string. -/
theorem c9_lookup_empty_controller_id_witness :
    ApiCall.describeInstances (findInstancesInput "" "garm-instance") ∈
      (pNoMatches.GetInstance "garm-instance").2 ∧
    ({ name := "tag:GARM_CONTROLLER_ID", values := [""] } : Ec2Filter) ∈
      (findInstancesInput "" "garm-instance").filters :=
  ⟨(c9_lookup_empty_controller_id pNoMatches "garm-instance" (by decide)).1,
   (c9_lookup_empty_controller_id pNoMatches "garm-instance" (by decide)).2.2.2.1⟩

/-- C10: an empty (zero-length) extra-specs blob is rejected — schema
validation runs unconditionally on the raw bytes and empty input is not valid
JSON, even though the unmarshal step is guarded by a length check — so
extra-specs parsing, spec construction and create all fail for such input. -/
theorem c10_empty_extra_specs_rejected (data : BootstrapInstance)
    (h : data.extraSpecs = "") :
    jsonSchemaValidation data.extraSpecs = .error "failed to validate schema: invalid JSON" ∧
    newExtraSpecsFromBootstrapData data =
      .error "failed to validate extra specs: failed to validate schema: invalid JSON" ∧
    (∀ tf cfg cid, ∃ msg, GetRunnerSpecFromBootstrapParams tf cfg data cid = .error msg) ∧
    (∀ p tf cfg launch, ∃ e, AwsProvider.CreateInstance p tf cfg launch data = .error e) := by
  have h1 : jsonSchemaValidation data.extraSpecs =
      .error "failed to validate schema: invalid JSON" := by
    rw [h]
    rfl
  have h2 : newExtraSpecsFromBootstrapData data =
      .error "failed to validate extra specs: failed to validate schema: invalid JSON" := by
    unfold newExtraSpecsFromBootstrapData
    rw [h1]
    rfl
  have h3 : ∀ tf cfg cid, ∃ msg,
      GetRunnerSpecFromBootstrapParams tf cfg data cid = .error msg := by
    intro tf cfg cid
    unfold GetRunnerSpecFromBootstrapParams
    rcases htf : tf data.osType data.osArch data.tools with e | tools
    · exact ⟨_, rfl⟩
    · rw [h2]
      exact ⟨_, rfl⟩
  refine ⟨h1, h2, h3, ?_⟩
  intro p tf cfg launch
  obtain ⟨msg, hm⟩ := h3 tf cfg p.controllerID
  unfold AwsProvider.CreateInstance
  rw [hm]
  exact ⟨_, rfl⟩

/-- C10 witness: for concrete bootstrap data carrying a zero-length
extra-specs blob, parsing, spec building and create all fail. -/
theorem c10_empty_extra_specs_rejected_witness :
    newExtraSpecsFromBootstrapData bpEmptySpecs =
      .error "failed to validate extra specs: failed to validate schema: invalid JSON" ∧
    (∃ msg, GetRunnerSpecFromBootstrapParams toolFetchFixture cfgFixture bpEmptySpecs
      "controller-1" = .error msg) ∧
    (∃ e, AwsProvider.CreateInstance pNoMatches toolFetchFixture cfgFixture launchFixture
      bpEmptySpecs = .error e) :=
  ⟨(c10_empty_extra_specs_rejected bpEmptySpecs rfl).2.1,
   (c10_empty_extra_specs_rejected bpEmptySpecs rfl).2.2.1 toolFetchFixture cfgFixture
     "controller-1",
   (c10_empty_extra_specs_rejected bpEmptySpecs rfl).2.2.2 pNoMatches toolFetchFixture
     cfgFixture launchFixture⟩

end GarmAws
